import Mathlib

/-!
Shallow embedding of the filtering engine of
`scipy-style-medical-image-filter-cpp` (`src/src/main.cpp`, class
`ImageFilter`).  Samples are modelled as exact rationals; `double`
arithmetic on the values appearing here is exact, so the translation of
each arithmetic expression is literal.
-/

namespace ImageFilter

/-- A 2D matrix: `std::vector<std::vector<double>>`. -/
abbrev Mat2D := List (List ℚ)

/-- A 3D volume: `std::vector<Mat2D>`, indexed `[depth][row][col]`. -/
abbrev Mat3D := List Mat2D

/-- The kernel-symmetry tolerance: `eps = 1e-6`, the default argument of
`ImageFilter::isClose`. -/
def epsTol : ℚ := 1 / 1000000

/-- Transcribes `ImageFilter::isClose(a, b, eps = 1e-6)`: `fabs(a - b) < eps`. -/
def isClose (a b : ℚ) : Bool := decide (|a - b| < epsTol)

/-- Read a row of a `Mat2D`; out-of-range reads (undefined behaviour in the
C++) default to `[]`. -/
def row2 (m : Mat2D) (i : ℕ) : List ℚ := m.getD i []

/-- Read a cell of a `Mat2D` at natural indices; out-of-range reads default
to `0`. -/
def cell2 (m : Mat2D) (i j : ℕ) : ℚ := (m.getD i []).getD j 0

/-- Read a cell of a `Mat3D` at natural indices; out-of-range reads default
to `0`. -/
def cell3 (v : Mat3D) (z i j : ℕ) : ℚ := ((v.getD z []).getD i []).getD j 0

/-- Read a cell of a `Mat2D` at integer indices (negative indices and
out-of-range reads, undefined behaviour in the C++, default to `0`). -/
def at2 (m : Mat2D) (i j : ℤ) : ℚ :=
  if 0 ≤ i ∧ 0 ≤ j then cell2 m i.toNat j.toNat else 0

/-- Read a cell of a `Mat3D` at integer indices, defaulting to `0` out of
range. -/
def at3 (v : Mat3D) (z i j : ℤ) : ℚ :=
  if 0 ≤ z ∧ 0 ≤ i ∧ 0 ≤ j then cell3 v z.toNat i.toNat j.toNat else 0

/-- Transcribes `ImageFilter::getMirrorIndex(idx, size, borderType)` (main.cpp
lines 708–725).  `std::clamp(idx, 0, size-1)` is `min (max idx 0) (size-1)`. -/
def getMirrorIndex (idx size borderType : ℤ) : ℤ :=
  if size ≤ 0 then 0
  else if borderType = 1 then min (max idx 0) (size - 1)
  else if borderType = 2 then
    if idx < 0 then -idx - 1
    else if size ≤ idx then 2 * size - idx - 1
    else idx
  else if borderType = 3 then
    if idx < 0 then -idx
    else if size ≤ idx then 2 * size - idx - 2
    else idx
  else 0

/-- Transcribes `ImageFilter::getBorderValue(input, row, col, rows, cols, borderType,
cval)` (main.cpp lines 728–741). -/
def getBorderValue (input : Mat2D) (row col rows cols borderType : ℤ)
    (cval : ℚ) : ℚ :=
  if 0 ≤ row ∧ row < rows ∧ 0 ≤ col ∧ col < cols then at2 input row col
  else if borderType = 0 then cval
  else at2 input (getMirrorIndex row rows borderType)
    (getMirrorIndex col cols borderType)

/-- Value written by the top/bottom-border loop of `ImageFilter::pad2D`
(main.cpp lines 412–432) at loop indices `t` (row, `0 ≤ t < pad_row`) and
`j` (padded column).  Both branches of the `if` in the source compute the
same expression
`getBorderValue(input, mirror_row - pad_row, original_col, ...)` with
`mirror_row - pad_row = (pad_row - t - 1) - pad_row = -t - 1` and
`original_col = getMirrorIndex(j - pad_col, cols, borderType)`. -/
def pad2DtopVal (input : Mat2D) (rows cols pad_col : ℕ) (borderType : ℤ)
    (cval : ℚ) (t j : ℕ) : ℚ :=
  getBorderValue input (-(t : ℤ) - 1)
    (getMirrorIndex ((j : ℤ) - (pad_col : ℤ)) cols borderType)
    rows cols borderType cval

/-- Value written by the left/right-border loop of `ImageFilter::pad2D`
(main.cpp lines 435–446) at loop indices `i` (padded row,
`pad_row ≤ i < pad_row + rows`) and `j` (column, `0 ≤ j < pad_col`):
`getBorderValue(input, i - pad_row, mirror_col - pad_col, ...)` with
`mirror_col - pad_col = (pad_col - j - 1) - pad_col = -j - 1`. -/
def pad2DleftVal (input : Mat2D) (rows cols pad_row : ℕ) (borderType : ℤ)
    (cval : ℚ) (i j : ℕ) : ℚ :=
  getBorderValue input ((i : ℤ) - (pad_row : ℤ)) (-(j : ℤ) - 1)
    rows cols borderType cval

/-- The cell of the array built by `ImageFilter::pad2D` at padded
coordinates `(i, j)`.  The three loop nests of the source write disjoint
cells (for a non-empty input): the top loop writes rows `t < pad_row`
directly and mirrors each value to row `new_rows - 1 - t`; the left loop
writes columns `j < pad_col` of the middle rows directly and mirrors each
value to column `new_cols - 1 - j`; the central block copies `input`. -/
def pad2Dcell (input : Mat2D) (rows cols pad_row pad_col : ℕ)
    (borderType : ℤ) (cval : ℚ) (i j : ℕ) : ℚ :=
  if i < pad_row then
    pad2DtopVal input rows cols pad_col borderType cval i j
  else if pad_row + rows ≤ i then
    pad2DtopVal input rows cols pad_col borderType cval
      (rows + 2 * pad_row - 1 - i) j
  else if j < pad_col then
    pad2DleftVal input rows cols pad_row borderType cval i j
  else if pad_col + cols ≤ j then
    pad2DleftVal input rows cols pad_row borderType cval i
      (cols + 2 * pad_col - 1 - j)
  else
    cell2 input (i - pad_row) (j - pad_col)

/-- Transcribes `ImageFilter::pad2D(input, pad_row, pad_col, borderType, cval)`
(main.cpp lines 394–449): returns `{}` for an empty input, otherwise a
`(rows + 2*pad_row) × (cols + 2*pad_col)` array whose cells are given by
`pad2Dcell`. -/
def pad2D (input : Mat2D) (pad_row pad_col : ℕ) (borderType : ℤ)
    (cval : ℚ) : Mat2D :=
  if input.isEmpty then []
  else
    (List.range (input.length + 2 * pad_row)).map fun i =>
      (List.range ((input.headD []).length + 2 * pad_col)).map fun j =>
        pad2Dcell input input.length (input.headD []).length
          pad_row pad_col borderType cval i j

/-- The slice written by the depth-fill loops of `ImageFilter::pad3D`
for a non-`CONSTANT` border: an element-by-element copy (over the
`new_rows × new_cols` grid) of `sliced_padded[src]`. -/
def pad3DsliceCopy (sliced : List Mat2D) (src new_rows new_cols : ℕ) :
    Mat2D :=
  (List.range new_rows).map fun i =>
    (List.range new_cols).map fun j => cell2 (sliced.getD src []) i j

/-- The slice written by the depth-fill loops of `ImageFilter::pad3D` for
the `CONSTANT` border: every cell of the `new_rows × new_cols` grid is
`cval`. -/
def pad3DconstSlice (new_rows new_cols : ℕ) (cval : ℚ) : Mat2D :=
  (List.range new_rows).map fun _ =>
    (List.range new_cols).map fun _ => cval

/-- Transcribes `std::clamp(v, 0, depth - 1)` on the source depth index of
`ImageFilter::pad3D` (lines 482 and 499), converted to a `ℕ` index. -/
def clampDepth (v : ℤ) (depth : ℕ) : ℕ :=
  (min (max v 0) ((depth : ℤ) - 1)).toNat

/-- The depth-slice of the array built by `ImageFilter::pad3D` at padded
depth index `z`.  `sliced` is the list of row/col-padded slices, `depth`
the input depth. -/
def pad3Dslice (sliced : List Mat2D) (depth pad_depth : ℕ)
    (borderType : ℤ) (cval : ℚ) (z : ℕ) : Mat2D :=
  if z < pad_depth then
    if borderType = 0 then
      pad3DconstSlice (sliced.headD []).length
        ((sliced.headD []).headD []).length cval
    else
      pad3DsliceCopy sliced
        (clampDepth (getMirrorIndex ((z : ℤ) - (pad_depth : ℤ)) depth
          borderType) depth)
        (sliced.headD []).length ((sliced.headD []).headD []).length
  else if z < pad_depth + depth then
    sliced.getD (z - pad_depth) []
  else
    if borderType = 0 then
      pad3DconstSlice (sliced.headD []).length
        ((sliced.headD []).headD []).length cval
    else
      pad3DsliceCopy sliced
        (clampDepth (getMirrorIndex ((depth : ℤ) + ((z : ℤ) -
          (pad_depth : ℤ) - (depth : ℤ))) depth borderType) depth)
        (sliced.headD []).length ((sliced.headD []).headD []).length

/-- Transcribes `ImageFilter::pad3D(input, pads, borderType, cval)` (main.cpp
lines 452–513): returns `{}` for an empty input; otherwise pads every
depth-slice via `pad2D` with `pad_row = pads[0]`, `pad_col = pads[1]`,
then fills the depth direction (`pad_depth = pads.size() > 2 ? pads[2] : 0`).
The `pads.size() < 2` error throw is modelled separately by the
hypotheses of the theorems. -/
def pad3D (input : Mat3D) (pads : List ℕ) (borderType : ℤ) (cval : ℚ) :
    Mat3D :=
  if input.isEmpty then []
  else
    (List.range (input.length + 2 * pads.getD 2 0)).map
      (pad3Dslice
        (input.map fun s => pad2D s (pads.getD 0 0) (pads.getD 1 0)
          borderType cval)
        input.length (pads.getD 2 0) borderType cval)

/-- The `symmetric` flag computed by `ImageFilter::correlate1d`
(main.cpp lines 539–544): `isClose(weights[k_half + i], weights[k_half - i])`
for every `i ∈ [1, k_half]`. -/
def symCheck (weights : List ℚ) (k_half : ℕ) : Bool :=
  (List.range k_half).all fun i0 =>
    isClose (weights.getD (k_half + (i0 + 1)) 0)
      (weights.getD (k_half - (i0 + 1)) 0)

/-- The `anti_symmetric` flag computed by `ImageFilter::correlate1d`
(main.cpp lines 539–544): `isClose(weights[k_half + i], -weights[k_half - i])`
for every `i ∈ [1, k_half]`. -/
def antiCheck (weights : List ℚ) (k_half : ℕ) : Bool :=
  (List.range k_half).all fun i0 =>
    isClose (weights.getD (k_half + (i0 + 1)) 0)
      (-(weights.getD (k_half - (i0 + 1)) 0))

/-- The per-output-cell sum of `ImageFilter::correlate1d`; `tap d` reads
the padded volume at signed offset `d` from the centered coordinate along
the filtered axis.  The three branches transcribe the `symmetric`,
`anti_symmetric` and general paths of the source (main.cpp lines 553–569,
repeated per axis). -/
def corrVal (sym anti : Bool) (weights : List ℚ) (k_half : ℕ)
    (tap : ℤ → ℚ) : ℚ :=
  if sym then
    tap 0 * weights.getD k_half 0 +
      ((List.range k_half).map fun (i0 : ℕ) =>
        (tap (-((i0 : ℤ) + 1)) + tap ((i0 : ℤ) + 1)) *
          weights.getD (k_half + i0 + 1) 0).sum
  else if anti then
    tap 0 * weights.getD k_half 0 +
      ((List.range k_half).map fun (i0 : ℕ) =>
        (tap (-((i0 : ℤ) + 1)) - tap ((i0 : ℤ) + 1)) *
          weights.getD (k_half + i0 + 1) 0).sum
  else
    ((List.range weights.length).map fun (i : ℕ) =>
      tap ((i : ℤ) - (k_half : ℤ)) * weights.getD i 0).sum

/-- The body of `ImageFilter::correlate1d` (main.cpp lines 519–634) with
the two path-selection flags abstracted: pads the input by
`k_half = weights.size() / 2` along `axis`, then fills the
`depth × rows × cols` output with `corrVal` sums.  Per axis, the taps read
`padded[z + pads[2]][r + pads[0]][c + pads[1]]` shifted by `k_half + d`
along the filtered axis, exactly as in the three loop nests of the
source. -/
def correlate1dPaths (input : Mat3D) (weights : List ℚ) (axis : ℕ)
    (borderType : ℤ) (cval : ℚ) (sym anti : Bool) : Mat3D :=
  let k_half := weights.length / 2
  let pads : List ℕ :=
    [if axis = 0 then k_half else 0,
     if axis = 1 then k_half else 0,
     if axis = 2 then k_half else 0]
  let padded := pad3D input pads borderType cval
  (List.range input.length).map fun z =>
    (List.range (input.headD []).length).map fun r =>
      (List.range ((input.headD []).headD []).length).map fun c =>
        if axis = 0 then
          corrVal sym anti weights k_half fun d =>
            at3 padded ((z : ℤ) + (pads.getD 2 0 : ℕ))
              (((k_half : ℤ) + (r : ℤ)) + d)
              ((c : ℤ) + (pads.getD 1 0 : ℕ))
        else if axis = 1 then
          corrVal sym anti weights k_half fun d =>
            at3 padded ((z : ℤ) + (pads.getD 2 0 : ℕ))
              ((r : ℤ) + (pads.getD 0 0 : ℕ))
              (((k_half : ℤ) + (c : ℤ)) + d)
        else
          corrVal sym anti weights k_half fun d =>
            at3 padded (((k_half : ℤ) + (z : ℤ)) + d)
              ((r : ℤ) + (pads.getD 0 0 : ℕ))
              ((c : ℤ) + (pads.getD 1 0 : ℕ))

/-- The computation performed by `ImageFilter::correlate1d` for a
non-empty input, non-empty kernel and valid axis: the path flags are the
`symmetric` / `anti_symmetric` checks of the source, chosen once per
call. -/
def correlate1dCore (input : Mat3D) (weights : List ℚ) (axis : ℕ)
    (borderType : ℤ) (cval : ℚ) : Mat3D :=
  correlate1dPaths input weights axis borderType cval
    (symCheck weights (weights.length / 2))
    (antiCheck weights (weights.length / 2))

/-- The "general full weighted sum" path of `ImageFilter::correlate1d`
(the `else` branch of the per-cell sum, main.cpp lines 565–569), run
unconditionally: both path flags forced to `false`. -/
def correlate1dGeneral (input : Mat3D) (weights : List ℚ) (axis : ℕ)
    (borderType : ℤ) (cval : ℚ) : Mat3D :=
  correlate1dPaths input weights axis borderType cval false false

/-- The error kind of the `std::invalid_argument` throws of the source. -/
inductive FilterError where
  | invalidArgument
  deriving DecidableEq

/-- Call interface of `ImageFilter::correlate1d` (main.cpp lines 519–522):
`if (input.empty() || weights.empty()) return;` leaves the output
parameter untouched (modelled as `.ok none`); then
`if (axis < 0 || axis > 2) throw std::invalid_argument(...)`; otherwise
the output is computed. -/
def correlate1d (input : Mat3D) (weights : List ℚ) (axis : ℤ)
    (borderType : ℤ) (cval : ℚ) : Except FilterError (Option Mat3D) :=
  if input.isEmpty ∨ weights.isEmpty then .ok none
  else if axis < 0 ∨ 2 < axis then .error .invalidArgument
  else .ok (some (correlate1dCore input weights axis.toNat borderType cval))

/-- Call interface of `ImageFilter::sobel` (main.cpp lines 681–702):
`if (input.empty()) return {};` (an empty volume, no error); then the axis
check throws; otherwise one gradient correlation with `{-1, 0, 1}` along
`axis` followed by smoothing correlations with `{1, 2, 1}` along the other
axes in ascending order. -/
def sobel (input : Mat3D) (axis : ℤ) (borderType : ℤ) (cval : ℚ) :
    Except FilterError Mat3D :=
  if input.isEmpty then .ok []
  else if axis < 0 ∨ 2 < axis then .error .invalidArgument
  else
    let g := correlate1dCore input [-1, 0, 1] axis.toNat borderType cval
    let s0 := if axis = 0 then g
      else correlate1dCore g [1, 2, 1] 0 borderType cval
    let s1 := if axis = 1 then s0
      else correlate1dCore s0 [1, 2, 1] 1 borderType cval
    let s2 := if axis = 2 then s1
      else correlate1dCore s1 [1, 2, 1] 2 borderType cval
    .ok s2

/-- Defines `|a - b| <= 1e-9 * max |a| |b|`: the `1e-9` relative-tolerance
comparison named by the specification for the path-equivalence
property. -/
def relClose (a b : ℚ) : Prop :=
  |a - b| ≤ 1 / 1000000000 * max |a| |b|

instance (a b : ℚ) : Decidable (relClose a b) := by
  unfold relClose; infer_instance

/-! ### Helper lemmas about list indexing -/

theorem getD_range_map {α : Type} (f : ℕ → α) (d : α) {n i : ℕ}
    (h : i < n) : ((List.range n).map f).getD i d = f i := by
  rw [List.getD_eq_getElem _ _ (by simpa using h)]
  simp

theorem getD_map_of_lt {α β : Type} (f : α → β) (l : List α) (d : β)
    (d' : α) {i : ℕ} (h : i < l.length) :
    (l.map f).getD i d = f (l.getD i d') := by
  rw [List.getD_eq_getElem _ _ (by simpa using h),
    List.getD_eq_getElem _ _ h]
  simp

theorem isEmpty_false_of_ne_nil {α : Type} {l : List α} (h : l ≠ []) :
    l.isEmpty = false := by
  cases l with
  | nil => exact absurd rfl h
  | cons a t => rfl

/-- For a non-empty input and in-range padded coordinates, a cell of
`pad2D` is `pad2Dcell`. -/
theorem cell2_pad2D (input : Mat2D) (pr pc : ℕ) (bt : ℤ) (cval : ℚ)
    (hne : input ≠ []) {i j : ℕ}
    (hi : i < input.length + 2 * pr)
    (hj : j < (input.headD []).length + 2 * pc) :
    cell2 (pad2D input pr pc bt cval) i j =
      pad2Dcell input input.length (input.headD []).length pr pc bt cval
        i j := by
  unfold cell2 pad2D
  rw [isEmpty_false_of_ne_nil hne]
  simp only [Bool.false_eq_true, if_false]
  rw [getD_range_map _ _ hi, getD_range_map _ _ hj]

/-- For a non-empty input and an in-range padded depth index, a depth
slice of `pad3D` is `pad3Dslice`. -/
theorem getD_pad3D (input : Mat3D) (pads : List ℕ) (bt : ℤ) (cval : ℚ)
    (hne : input ≠ []) {z : ℕ}
    (hz : z < input.length + 2 * pads.getD 2 0) :
    (pad3D input pads bt cval).getD z [] =
      pad3Dslice
        (input.map fun s => pad2D s (pads.getD 0 0) (pads.getD 1 0) bt
          cval)
        input.length (pads.getD 2 0) bt cval z := by
  unfold pad3D
  rw [isEmpty_false_of_ne_nil hne]
  simp only [Bool.false_eq_true, if_false]
  exact getD_range_map _ _ hz

/-! ### Claim theorems -/

/-- C3: Padding round-trip: for every non-empty rectangular volume `V`,
every pad vector with at least two (non-negative) entries, every border
mode and every fill value, the central sub-block of
`pad3D(V, pads, mode, c)` — offset by the pad amount on each padded
axis — equals `V` element for element. -/
theorem pad3D_central_roundtrip (V : Mat3D) (pads : List ℕ) (bt : ℤ)
    (cval : ℚ) (rows cols : ℕ) (hV : V ≠ [])
    (hrows : ∀ s ∈ V, s.length = rows)
    (hcols : ∀ s ∈ V, ∀ r ∈ s, r.length = cols)
    (hpads : 2 ≤ pads.length) :
    ∀ z i j, z < V.length → i < rows → j < cols →
      cell3 (pad3D V pads bt cval) (pads.getD 2 0 + z)
        (pads.getD 0 0 + i) (pads.getD 1 0 + j) = cell3 V z i j := by
  intro z i j hz hi hj
  have hVz : V.getD z [] ∈ V := by
    rw [List.getD_eq_getElem _ _ hz]
    exact List.getElem_mem hz
  have hslen : (V.getD z []).length = rows := hrows _ hVz
  have hsne : V.getD z [] ≠ [] := by
    intro hnil
    rw [hnil] at hslen
    simp at hslen
    omega
  have hhead : ((V.getD z []).headD []).length = cols := by
    rcases hs : V.getD z [] with _ | ⟨r, t⟩
    · exact absurd hs hsne
    · have : r ∈ V.getD z [] := by rw [hs]; exact List.mem_cons_self r t
      simpa using hcols _ hVz r this
  unfold cell3
  rw [getD_pad3D V pads bt cval hV (by omega)]
  unfold pad3Dslice
  rw [if_neg (by omega), if_pos (by omega)]
  have hzz : pads.getD 2 0 + z - pads.getD 2 0 = z := by omega
  rw [hzz]
  rw [getD_map_of_lt _ _ _ [] hz]
  have hcell := cell2_pad2D (V.getD z []) (pads.getD 0 0) (pads.getD 1 0)
    bt cval hsne (i := pads.getD 0 0 + i) (j := pads.getD 1 0 + j)
    (by omega) (by omega)
  unfold cell2 at hcell
  rw [hcell]
  unfold pad2Dcell
  rw [if_neg (by omega), if_neg (by omega), if_neg (by omega),
    if_neg (by omega)]
  have e1 : pads.getD 0 0 + i - pads.getD 0 0 = i := by omega
  have e2 : pads.getD 1 0 + j - pads.getD 1 0 = j := by omega
  rw [e1, e2]
  rfl

/-- Witness for C3 at a concrete volume, pad vector and border mode. -/
theorem pad3D_central_roundtrip_witness :
    ([[[1,2],[3,4]],[[5,6],[7,8]]] : Mat3D) ≠ [] ∧
      2 ≤ ([1,2,3] : List ℕ).length ∧
      cell3 (pad3D [[[1,2],[3,4]],[[5,6],[7,8]]] [1,2,3] 2 9) 4 1 3 =
        cell3 [[[1,2],[3,4]],[[5,6],[7,8]]] 1 0 1 :=
  ⟨by decide, by decide,
    pad3D_central_roundtrip [[[1,2],[3,4]],[[5,6],[7,8]]] [1,2,3] 2 9 2 2
      (by decide) (by decide) (by decide) (by decide) 1 0 1
      (by decide) (by decide) (by decide)⟩

/-- C10: mirror-write invariant of `pad2D`: for every non-empty input and
every border mode, each bottom pad row is an exact copy of the
corresponding top pad row, and, on the middle rows, each right pad column
is an exact copy of the corresponding left pad column. -/
theorem pad2D_mirror_invariant (input : Mat2D) (pr pc : ℕ) (bt : ℤ)
    (cval : ℚ) (hne : input ≠ []) :
    (∀ i j, i < pr → j < (input.headD []).length + 2 * pc →
      cell2 (pad2D input pr pc bt cval) i j =
        cell2 (pad2D input pr pc bt cval)
          (input.length + 2 * pr - 1 - i) j) ∧
    (∀ i j, pr ≤ i → i < input.length + pr → j < pc →
      cell2 (pad2D input pr pc bt cval) i j =
        cell2 (pad2D input pr pc bt cval) i
          ((input.headD []).length + 2 * pc - 1 - j)) := by
  have hrows1 : 0 < input.length := List.length_pos.mpr hne
  constructor
  · intro i j hi hj
    rw [cell2_pad2D _ _ _ _ _ hne (by omega) hj,
      cell2_pad2D _ _ _ _ _ hne (by omega) hj]
    unfold pad2Dcell
    rw [if_pos hi, if_neg (by omega), if_pos (by omega)]
    have e : input.length + 2 * pr - 1 -
        (input.length + 2 * pr - 1 - i) = i := by omega
    rw [e]
  · intro i j hi hi' hj
    rw [cell2_pad2D _ _ _ _ _ hne (by omega) (by omega),
      cell2_pad2D _ _ _ _ _ hne (by omega) (by omega)]
    unfold pad2Dcell
    rw [if_neg (by omega), if_neg (by omega), if_pos hj,
      if_neg (by omega), if_neg (by omega), if_neg (by omega),
      if_pos (by omega)]
    have e : (input.headD []).length + 2 * pc - 1 -
        ((input.headD []).length + 2 * pc - 1 - j) = j := by omega
    rw [e]

/-- Witness for C10 at a concrete input: one bottom-pad cell and one
right-pad cell. -/
theorem pad2D_mirror_invariant_witness :
    ([[1,2],[3,4]] : Mat2D) ≠ [] ∧
      cell2 (pad2D [[1,2],[3,4]] 2 2 2 0) 0 1 =
        cell2 (pad2D [[1,2],[3,4]] 2 2 2 0) 5 1 ∧
      cell2 (pad2D [[1,2],[3,4]] 2 2 2 0) 2 0 =
        cell2 (pad2D [[1,2],[3,4]] 2 2 2 0) 2 5 :=
  ⟨by decide,
    (pad2D_mirror_invariant [[1,2],[3,4]] 2 2 2 0 (by decide)).1 0 1
      (by decide) (by decide),
    (pad2D_mirror_invariant [[1,2],[3,4]] 2 2 2 0 (by decide)).2 2 0
      (by decide) (by decide) (by decide)⟩

/-- C6: the border-index resolver maps `idx` under Replicate to
`max(0, min(idx, size-1))`; under Reflect it maps `idx < 0` to `-idx-1`
and `idx ≥ size` to `2*size-idx-1`; under Reflect101 it maps `idx < 0` to
`-idx` and `idx ≥ size` to `2*size-idx-2`; consequently, for the row
`[1,2,3,4]` padded (left) by 1, the left-border cell holds `1` under
Reflect and `2` under Reflect101. -/
theorem getMirrorIndex_mode_formulas (size idx : ℤ) (hs : 0 < size) :
    getMirrorIndex idx size 1 = max 0 (min idx (size - 1)) ∧
    (idx < 0 → getMirrorIndex idx size 2 = -idx - 1) ∧
    (size ≤ idx → getMirrorIndex idx size 2 = 2 * size - idx - 1) ∧
    (idx < 0 → getMirrorIndex idx size 3 = -idx) ∧
    (size ≤ idx → getMirrorIndex idx size 3 = 2 * size - idx - 2) ∧
    cell2 (pad2D [[1,2,3,4]] 0 1 2 0) 0 0 = 1 ∧
    cell2 (pad2D [[1,2,3,4]] 0 1 3 0) 0 0 = 2 := by
  refine ⟨?_, ?_, ?_, ?_, ?_, ?_, ?_⟩
  · unfold getMirrorIndex
    rw [if_neg (by omega), if_pos rfl]
    omega
  · intro h
    unfold getMirrorIndex
    rw [if_neg (by omega), if_neg (by decide), if_pos rfl, if_pos h]
  · intro h
    unfold getMirrorIndex
    rw [if_neg (by omega), if_neg (by decide), if_pos rfl,
      if_neg (by omega), if_pos h]
  · intro h
    unfold getMirrorIndex
    rw [if_neg (by omega), if_neg (by decide), if_neg (by decide),
      if_pos rfl, if_pos h]
  · intro h
    unfold getMirrorIndex
    rw [if_neg (by omega), if_neg (by decide), if_neg (by decide),
      if_pos rfl, if_neg (by omega), if_pos h]
  · with_unfolding_all rfl
  · with_unfolding_all rfl

/-- Witness for C6 at `size = 4`, `idx = -1`. -/
theorem getMirrorIndex_mode_formulas_witness :
    (0:ℤ) < 4 ∧
      (getMirrorIndex (-1) 4 1 = max 0 (min (-1) (4 - 1)) ∧
      ((-1:ℤ) < 0 → getMirrorIndex (-1) 4 2 = -(-1) - 1) ∧
      ((4:ℤ) ≤ -1 → getMirrorIndex (-1) 4 2 = 2 * 4 - (-1) - 1) ∧
      ((-1:ℤ) < 0 → getMirrorIndex (-1) 4 3 = -(-1)) ∧
      ((4:ℤ) ≤ -1 → getMirrorIndex (-1) 4 3 = 2 * 4 - (-1) - 2) ∧
      cell2 (pad2D [[1,2,3,4]] 0 1 2 0) 0 0 = 1 ∧
      cell2 (pad2D [[1,2,3,4]] 0 1 3 0) 0 0 = 2) :=
  ⟨by decide, getMirrorIndex_mode_formulas 4 (-1) (by decide)⟩

/-- C7 counterexample: under Reflect101 (a non-Constant mode) with
`size = 2 > 0`, the index `idx = -2` satisfies the claimed single-bounce
range `-size ≤ idx ≤ 2*size - 1`, yet the resolver returns `2`, outside
`[0, size-1]` — so the subsequent read is out of bounds. -/
theorem getMirrorIndex_range_claim_false :
    (0:ℤ) < 2 ∧ (-(2:ℤ) ≤ -2 ∧ (-2:ℤ) ≤ 2 * 2 - 1) ∧
      getMirrorIndex (-2) 2 3 = 2 ∧
      ¬(0 ≤ getMirrorIndex (-2) 2 3 ∧
        getMirrorIndex (-2) 2 3 ≤ 2 - 1) := by
  decide

/-- C7 (amended): for `size ≤ 0` the resolver returns `0`; for
`size > 0` the resolved index lies in `[0, size-1]` for Replicate at
every `idx`, for Reflect whenever `-size ≤ idx ≤ 2*size-1`, and for
Reflect101 only on the strictly smaller range `-size < idx < 2*size-1`
(out-of-range distance at most `size - 1`). -/
theorem getMirrorIndex_range_contract (size idx bt : ℤ) :
    (size ≤ 0 → getMirrorIndex idx size bt = 0) ∧
    (0 < size → bt = 1 →
      0 ≤ getMirrorIndex idx size bt ∧
        getMirrorIndex idx size bt ≤ size - 1) ∧
    (0 < size → bt = 2 → -size ≤ idx → idx ≤ 2 * size - 1 →
      0 ≤ getMirrorIndex idx size bt ∧
        getMirrorIndex idx size bt ≤ size - 1) ∧
    (0 < size → bt = 3 → -size < idx → idx < 2 * size - 1 →
      0 ≤ getMirrorIndex idx size bt ∧
        getMirrorIndex idx size bt ≤ size - 1) := by
  refine ⟨fun h => ?_, fun hs hb => ?_, fun hs hb h1 h2 => ?_,
    fun hs hb h1 h2 => ?_⟩
  · unfold getMirrorIndex
    rw [if_pos h]
  · subst hb
    unfold getMirrorIndex
    rw [if_neg (by omega), if_pos rfl]
    constructor <;> omega
  · subst hb
    unfold getMirrorIndex
    rw [if_neg (by omega), if_neg (by decide), if_pos rfl]
    split_ifs <;> constructor <;> omega
  · subst hb
    unfold getMirrorIndex
    rw [if_neg (by omega), if_neg (by decide), if_neg (by decide),
      if_pos rfl]
    split_ifs <;> constructor <;> omega

/-- Witness for C7 (amended) at `size = 3`, `idx = -3`, Reflect. -/
theorem getMirrorIndex_range_contract_witness :
    ((0:ℤ) < 3 ∧ -(3:ℤ) ≤ -3 ∧ (-3:ℤ) ≤ 2 * 3 - 1) ∧
      0 ≤ getMirrorIndex (-3) 3 2 ∧ getMirrorIndex (-3) 3 2 ≤ 3 - 1 :=
  ⟨by decide,
    (getMirrorIndex_range_contract 3 (-3) 2).2.2.1 (by decide) rfl
      (by decide) (by decide)⟩

set_option maxRecDepth 400000

/-- C1: evaluation of the failing input.  On the volume
`[[[0,0,0,10,10,10]]]` with the antisymmetric kernel `{-1,0,1}` along
axis 1 under Replicate, the call selects the antisymmetric path (the
symmetry check fails, the antisymmetry check passes), and the output of
that path disagrees with the general full weighted sum computed from the
same padded buffer: at index `(0,0,2)` the paired path yields `-10` while
the general sum yields `10` — the negation, far outside the claimed
`1e-9` relative tolerance. -/
theorem correlate1d_paths_disagree :
    symCheck [-1,0,1] 1 = false ∧ antiCheck [-1,0,1] 1 = true ∧
    correlate1dCore [[[0,0,0,10,10,10]]] [-1,0,1] 1 1 0 =
      [[[0,0,-10,-10,0,10]]] ∧
    correlate1dGeneral [[[0,0,0,10,10,10]]] [-1,0,1] 1 1 0 =
      [[[0,0,10,10,0,-10]]] ∧
    ¬ relClose
      (cell3 (correlate1dCore [[[0,0,0,10,10,10]]] [-1,0,1] 1 1 0) 0 0 2)
      (cell3 (correlate1dGeneral [[[0,0,0,10,10,10]]] [-1,0,1] 1 1 0)
        0 0 2) := by
  refine ⟨?_, ?_, ?_, ?_, ?_⟩
  · with_unfolding_all rfl
  · with_unfolding_all rfl
  · with_unfolding_all rfl
  · with_unfolding_all rfl
  · with_unfolding_all decide

/-- C2: evaluation of the failing input.  For the 2-row input
`[[1],[2]]` padded by one row under Replicate, the code copies the top
border value `1` (resolved from row index `-1`) into the bottom pad row
as well, so the bottom border holds `1`; resolving the out-of-range
coordinate `2` of the bottom pad row itself through the Replicate rule of §4.1 would
clamp to row `1` and read `2`. -/
theorem pad2D_bottom_border_not_resolved :
    pad2D [[1],[2]] 1 0 1 0 = [[1],[1],[2],[1]] ∧
      getMirrorIndex 2 2 1 = 1 ∧ cell2 [[1],[2]] 1 0 = 2 ∧
      cell2 (pad2D [[1],[2]] 1 0 1 0) 3 0 = 1 := by
  refine ⟨?_, ?_, ?_, ?_⟩ <;> with_unfolding_all rfl

/-- C4: evaluation of the failing input.  Correlating the single row
`[0,0,0,10,10,10]` with the gradient kernel `{-1,0,1}` along axis 1
under Replicate — the gradient stage of the Sobel pipeline — produces
`[0,0,-10,-10,0,10]`, not the claimed `[0,0,10,10,0,0]`: the
antisymmetric fast path negates the off-center contribution, and the
`pad2D` right-border cell wrongly holds the left-border value. -/
theorem sobel_gradient_stage_value :
    correlate1dCore [[[0,0,0,10,10,10]]] [-1,0,1] 1 1 0 =
      [[[0,0,-10,-10,0,10]]] := by
  with_unfolding_all rfl

/-- C5: evaluation of the failing input.  Correlating the single row
`[2,4,6,8]` with the symmetric kernel `[0.25,0.5,0.25]` along axis 1
under Replicate yields `[2.5,4,6,6]`, not the claimed `[2.5,4,6,7.5]`:
the right pad cell of the internal `pad2D` holds the left-border value
`2` instead of the replicated edge `8`, so the last output is
`8*0.5 + (6+2)*0.25 = 6`. -/
theorem correlate1d_row_2468_value :
    correlate1dCore [[[2,4,6,8]]] [1/4,1/2,1/4] 1 1 0 =
      [[[5/2,4,6,6]]] ∧
      cell2 (pad2D [[2,4,6,8]] 0 1 1 0) 0 5 = 2 := by
  refine ⟨?_, ?_⟩ <;> with_unfolding_all rfl

/-- C9: evaluation of the failing inputs.  `correlate1d` on an empty
volume (even with an invalid axis `7`) and on an empty kernel returns
silently with no output and no error, and `sobel` on an empty volume
with axis `7` returns an empty volume with no error — no
`InvalidArgument` is raised, because the emptiness early-return precedes
the axis check. -/
theorem empty_input_returns_silently :
    correlate1d [] [1] 7 1 0 = .ok none ∧
      correlate1d [[[1]]] [] 0 1 0 = .ok none ∧
      sobel [] 7 1 0 = .ok [] ∧
      correlate1d [[[1]]] [1] 7 1 0 = .error .invalidArgument := by
  refine ⟨?_, ?_, ?_, ?_⟩ <;> with_unfolding_all rfl

end ImageFilter
